import Mathlib

/-!
Shallow embedding of the MCP federation manager
(`src/federation/mcp_federation_manager.py`) and proofs about it.

The Python module keeps a dict `self.servers : Dict[str, MCPServerConfig]`
and talks to backends over HTTP/JSON-RPC.  Here the registry is an
insertion-ordered association list with unique keys (Python dict
semantics), JSON values are a small inductive type, and every network
interaction is passed in as an explicit outcome parameter: the outcome of
one JSON-RPC call is `Except Unit (Option Json)` — `.error ()` for any
transport/HTTP/protocol failure (all of which the Python code treats
identically: increment `error_count` and re-raise), `.ok r` for a
successful exchange whose parsed body yielded `data.get("result") = r`
(`none` when the "result" key is absent).

The embedding assumes the manager has been started (`self._http_client`
is initialized), as is the case on every code path the claims concern;
the `RuntimeError("HTTP client not initialized")` guard is therefore not
modelled.  Authentication headers are carried along for fidelity but play
no role in any claim.
-/

namespace Federation

/-- A minimal JSON value model, enough for the dynamic dictionaries the
Python code manipulates.  Object fields are kept in order. -/
inductive Json where
  | null : Json
  | bool (b : Bool) : Json
  | num (n : Int) : Json
  | str (s : String) : Json
  | arr (elems : List Json) : Json
  | obj (fields : List (String × Json)) : Json
deriving Repr, Inhabited

mutual

/-- Decidable equality for `Json` (automatic deriving does not handle the
nesting through `List`). -/
def Json.decEq : (a b : Json) → Decidable (a = b)
  | .null, .null => isTrue rfl
  | .bool a, .bool b =>
    if h : a = b then isTrue (by rw [h]) else isFalse (by simp [h])
  | .num a, .num b =>
    if h : a = b then isTrue (by rw [h]) else isFalse (by simp [h])
  | .str a, .str b =>
    if h : a = b then isTrue (by rw [h]) else isFalse (by simp [h])
  | .arr xs, .arr ys =>
    match Json.decEqList xs ys with
    | isTrue h => isTrue (by rw [h])
    | isFalse h => isFalse (by simp [h])
  | .obj xs, .obj ys =>
    match Json.decEqKV xs ys with
    | isTrue h => isTrue (by rw [h])
    | isFalse h => isFalse (by simp [h])
  | .null, .bool _ => isFalse (fun h => Json.noConfusion h)
  | .null, .num _ => isFalse (fun h => Json.noConfusion h)
  | .null, .str _ => isFalse (fun h => Json.noConfusion h)
  | .null, .arr _ => isFalse (fun h => Json.noConfusion h)
  | .null, .obj _ => isFalse (fun h => Json.noConfusion h)
  | .bool _, .null => isFalse (fun h => Json.noConfusion h)
  | .bool _, .num _ => isFalse (fun h => Json.noConfusion h)
  | .bool _, .str _ => isFalse (fun h => Json.noConfusion h)
  | .bool _, .arr _ => isFalse (fun h => Json.noConfusion h)
  | .bool _, .obj _ => isFalse (fun h => Json.noConfusion h)
  | .num _, .null => isFalse (fun h => Json.noConfusion h)
  | .num _, .bool _ => isFalse (fun h => Json.noConfusion h)
  | .num _, .str _ => isFalse (fun h => Json.noConfusion h)
  | .num _, .arr _ => isFalse (fun h => Json.noConfusion h)
  | .num _, .obj _ => isFalse (fun h => Json.noConfusion h)
  | .str _, .null => isFalse (fun h => Json.noConfusion h)
  | .str _, .bool _ => isFalse (fun h => Json.noConfusion h)
  | .str _, .num _ => isFalse (fun h => Json.noConfusion h)
  | .str _, .arr _ => isFalse (fun h => Json.noConfusion h)
  | .str _, .obj _ => isFalse (fun h => Json.noConfusion h)
  | .arr _, .null => isFalse (fun h => Json.noConfusion h)
  | .arr _, .bool _ => isFalse (fun h => Json.noConfusion h)
  | .arr _, .num _ => isFalse (fun h => Json.noConfusion h)
  | .arr _, .str _ => isFalse (fun h => Json.noConfusion h)
  | .arr _, .obj _ => isFalse (fun h => Json.noConfusion h)
  | .obj _, .null => isFalse (fun h => Json.noConfusion h)
  | .obj _, .bool _ => isFalse (fun h => Json.noConfusion h)
  | .obj _, .num _ => isFalse (fun h => Json.noConfusion h)
  | .obj _, .str _ => isFalse (fun h => Json.noConfusion h)
  | .obj _, .arr _ => isFalse (fun h => Json.noConfusion h)

/-- Decidable equality for lists of `Json`. -/
def Json.decEqList : (xs ys : List Json) → Decidable (xs = ys)
  | [], [] => isTrue rfl
  | [], _ :: _ => isFalse (by simp)
  | _ :: _, [] => isFalse (by simp)
  | x :: xs, y :: ys =>
    match Json.decEq x y, Json.decEqList xs ys with
    | isTrue h1, isTrue h2 => isTrue (by rw [h1, h2])
    | isFalse h1, _ => isFalse (by simp [h1])
    | _, isFalse h2 => isFalse (by simp [h2])

/-- Decidable equality for JSON object field lists. -/
def Json.decEqKV : (xs ys : List (String × Json)) → Decidable (xs = ys)
  | [], [] => isTrue rfl
  | [], _ :: _ => isFalse (by simp)
  | _ :: _, [] => isFalse (by simp)
  | (k1, v1) :: xs, (k2, v2) :: ys =>
    if hk : k1 = k2 then
      match Json.decEq v1 v2, Json.decEqKV xs ys with
      | isTrue h1, isTrue h2 => isTrue (by rw [hk, h1, h2])
      | isFalse h1, _ => isFalse (by simp [h1])
      | _, isFalse h2 => isFalse (by simp [h2])
    else isFalse (by simp [hk])

end

instance : DecidableEq Json := Json.decEq

instance {ε α : Type} [DecidableEq ε] [DecidableEq α] : DecidableEq (Except ε α) :=
  fun a b =>
    match a, b with
    | .ok x, .ok y =>
      if h : x = y then isTrue (by rw [h]) else isFalse (by simp [h])
    | .error x, .error y =>
      if h : x = y then isTrue (by rw [h]) else isFalse (by simp [h])
    | .ok _, .error _ => isFalse (fun h => Except.noConfusion h)
    | .error _, .ok _ => isFalse (fun h => Except.noConfusion h)

/-- Python truthiness of a JSON value (`if tools_response and ...`):
`None`, `False`, `0`, `""`, `[]`, `{}` are falsy. -/
def Json.truthy : Json → Bool
  | .null => false
  | .bool b => b
  | .num n => n != 0
  | .str s => s != ""
  | .arr xs => !xs.isEmpty
  | .obj kvs => !kvs.isEmpty

/-- Substring containment, as Python evaluates `pat in s` on strings
(for the nonempty patterns "tools" / "resources" used by the code):
`s.splitOn pat` has at least two pieces exactly when `pat` occurs. -/
def strContains (s pat : String) : Bool :=
  (s.splitOn pat).length >= 2

/-- Python `k in j`: key membership on a dict, element membership on a
list (string-vs-other comparisons are just unequal), substring test on a
string; `TypeError` (`.error ()`) on `None`, booleans and numbers. -/
def pyContains (j : Json) (k : String) : Except Unit Bool :=
  match j with
  | .obj kvs => .ok (kvs.any (fun kv => kv.1 == k))
  | .arr xs => .ok (xs.any (fun x => x == Json.str k))
  | .str s => .ok (strContains s k)
  | .null => .error ()
  | .bool _ => .error ()
  | .num _ => .error ()

/-- Python `j[k]`: field lookup that raises (`.error ()`) when the key is
absent or the value is not a dict (`KeyError` / `TypeError`). -/
def Json.get : Json → String → Except Unit Json
  | .obj kvs, k =>
    match kvs.find? (fun kv => kv.1 == k) with
    | some kv => .ok kv.2
    | none => .error ()
  | _, _ => .error ()

/-- Python `j.get(k, d)`: field lookup with default.  Only ever applied
to values already known to be dicts: in `namespace_tool` the `.get`
calls come after the `tool["name"]` subscript, which raises first on a
non-dict. -/
def Json.getD (j : Json) (k : String) (d : Json) : Json :=
  match j.get k with
  | .ok v => v
  | .error _ => d

/-- Python `len(j)`: defined on lists, strings and dicts; `TypeError`
(`.error ()`) on `None`, booleans and numbers.  This is the model of the
`len(...)` calls in `get_stats` / `get_server_info`. -/
def pyLen : Json → Except Unit Nat
  | .arr xs => .ok xs.length
  | .str s => .ok s.length
  | .obj kvs => .ok kvs.length
  | .null => .error ()
  | .bool _ => .error ()
  | .num _ => .error ()

/-- Total variant of `pyLen`, returning 0 where Python `len` would
raise.  NOT a model of any Python operation: it appears only in
specification statements whose hypotheses confine it to the sized cases,
where it agrees with `pyLen`. -/
def Json.len : Json → Nat
  | .arr xs => xs.length
  | .str s => s.length
  | .obj kvs => kvs.length
  | _ => 0

/-- Python `str(v)` as interpolated by an f-string, for the scalar values
that actually occur as tool names/descriptions.  (Composite values would
render with Python literal syntax; no claim exercises that case.) -/
def Json.pyStr : Json → String
  | .null => "None"
  | .bool true => "True"
  | .bool false => "False"
  | .num n => toString n
  | .str s => s
  | .arr _ => "<list>"
  | .obj _ => "<dict>"

/-- Python `for x in j`: the iterated items — the elements of a list,
the characters of a string (as 1-character strings), the keys of a dict;
`TypeError` (`.error ()`) on `None`, booleans and numbers.  This is the
model of the iteration in `get_all_tools`. -/
def pyIter : Json → Except Unit (List Json)
  | .arr xs => .ok xs
  | .str s => .ok (s.toList.map (fun ch => Json.str ch.toString))
  | .obj kvs => .ok (kvs.map (fun kv => Json.str kv.1))
  | .null => .error ()
  | .bool _ => .error ()
  | .num _ => .error ()

/-- The element list of a JSON array (`[]` for anything else).  NOT a
model of Python iteration (that is `pyIter`): it appears only in
specification statements, guarded there by `Json.isArr` or by a
membership hypothesis that forces the value to be an array. -/
def Json.elems : Json → List Json
  | .arr xs => xs
  | _ => []

/-- Whether a JSON value is an array; used in specification hypotheses
to confine statements to well-formed stored catalogs. -/
def Json.isArr : Json → Bool
  | .arr _ => true
  | _ => false

/-- The `MCPServerConfig` dataclass: caller-supplied fields plus runtime
state.  `last_health_check : Option Nat` stands for the
`Optional[datetime]`; the current time is threaded as a `Nat` tick.
`tools`/`resources` are `Json` because the Python code assigns whatever
the backend's response carried under the respective key. -/
structure MCPServerConfig where
  name : String
  url : String
  description : String := ""
  auth_type : Option String := none
  auth_token : Option String := none
  enabled : Bool := true
  metadata : List (String × Json) := []
  last_health_check : Option Nat := none
  is_healthy : Bool := false
  tools : Json := .arr []
  resources : Json := .arr []
  error_count : Nat := 0
deriving Repr, DecidableEq, Inhabited

/-- The registry `self.servers`: an insertion-ordered string-keyed map,
as a Python dict is. -/
abbrev Registry := List (String × MCPServerConfig)

/-- Dict lookup `self.servers[name]` / `name in self.servers`. -/
def dictGet (servers : Registry) (name : String) : Option MCPServerConfig :=
  match servers.find? (fun kv => kv.1 == name) with
  | some kv => some kv.2
  | none => none

/-- Python `name in self.servers`. -/
def dictHasKey (servers : Registry) (name : String) : Bool :=
  servers.any (fun kv => kv.1 == name)

/-- Dict assignment `self.servers[name] = config`: overwrite in place if
the key exists (keeping its position, as Python does), else append. -/
def dictSet (servers : Registry) (name : String) (config : MCPServerConfig) : Registry :=
  if dictHasKey servers name then
    servers.map (fun kv => if kv.1 == name then (name, config) else kv)
  else
    servers ++ [(name, config)]

/-- Dict deletion `del self.servers[name]`. -/
def dictRemove (servers : Registry) (name : String) : Registry :=
  servers.filter (fun kv => kv.1 != name)

/-- One outbound JSON-RPC request as issued by `_call_mcp_method`:
target URL, method, params, and the auth header it would attach.
Recorded so that "no network call is issued" is a provable statement. -/
structure MCPRequest where
  url : String
  method : String
  params : Json
  authHeader : Option (String × String)
deriving Repr, DecidableEq

/-- The authentication header `_call_mcp_method` attaches; Python tests
`config.auth_token` for truthiness, so an empty token attaches nothing. -/
def authHeaderOf (config : MCPServerConfig) : Option (String × String) :=
  match config.auth_type, config.auth_token with
  | some "bearer", some tok =>
    if tok != "" then some ("Authorization", "Bearer " ++ tok) else none
  | some "api_key", some tok =>
    if tok != "" then some ("X-API-Key", tok) else none
  | _, _ => none

/-- Python method `_call_mcp_method(config, method, params)`.  `resp` is the outcome of
the single HTTP exchange (see module comment).  Returns the Python
result (`data.get("result")` on success, a raised exception on failure),
the config after the call (on failure `config.error_count += 1` happens
before the re-raise), and the one request that was issued. -/
def call_mcp_method (config : MCPServerConfig) (method : String) (params : Json)
    (resp : Except Unit (Option Json)) :
    Except Unit (Option Json) × MCPServerConfig × List MCPRequest :=
  let req : MCPRequest := ⟨config.url, method, params, authHeaderOf config⟩
  match resp with
  | .ok r => (.ok r, config, [req])
  | .error _ => (.error (), { config with error_count := config.error_count + 1 }, [req])

/-- Network outcomes for one `_discover_server_capabilities` run: the
`tools/list` exchange and the `resources/list` exchange. -/
structure DiscoveryOutcome where
  toolsResp : Except Unit (Option Json)
  resourcesResp : Except Unit (Option Json)
deriving Repr, DecidableEq

/-- The guarded assignment pattern
`if resp and "k" in resp: field = resp["k"]` of
`_discover_server_capabilities`: `.ok none` when nothing is assigned
(falsy result — short-circuit — or membership test false),
`.ok (some v)` when `v` is assigned, `.error ()` when Python raises —
`TypeError` from `"k" in resp` on a truthy non-container, or from
`resp["k"]` when a string/list passed the membership test but cannot be
subscripted by a string. -/
def guardedFieldOf (r : Option Json) (k : String) : Except Unit (Option Json) :=
  match r with
  | none => .ok none
  | some j =>
    if j.truthy then
      match pyContains j k with
      | .error _ => .error ()
      | .ok true =>
        match j.get k with
        | .ok v => .ok (some v)
        | .error _ => .error ()
      | .ok false => .ok none
    else .ok none

/-- Python method `_discover_server_capabilities(config)` at time `now`.  Mutates the
config in place in Python, so the result carries the updated config in
both the success (`.ok`) and the raised-exception (`.error`) case.

The `tools/list` call is not wrapped in a try, so its failure propagates
(after its `error_count` increment), and so does a `TypeError` raised by
the `if tools_response and "tools" in tools_response` guard or the
`tools_response["tools"]` subscript — with NO `error_count` increment,
since `_call_mcp_method` already returned.  When the guard passes, the
field value is stored as-is; otherwise `config.tools` is left unchanged.
The `resources/list` block is wrapped in a bare `except: pass`, so any
failure there — connector or `TypeError` — is swallowed (a connector
failure still carries `_call_mcp_method`'s increment).  Finally
`config.is_healthy = True` and `config.last_health_check = now`. -/
def discover_server_capabilities (config : MCPServerConfig) (o : DiscoveryOutcome)
    (now : Nat) : Except MCPServerConfig MCPServerConfig :=
  match call_mcp_method config "tools/list" (.obj []) o.toolsResp with
  | (.error _, c1, _) => .error c1
  | (.ok r, c1, _) =>
    match guardedFieldOf r "tools" with
    | .error _ => .error c1
    | .ok maybeTools =>
      let c2 :=
        match maybeTools with
        | some v => { c1 with tools := v }
        | none => c1
      let c4 :=
        match call_mcp_method c2 "resources/list" (.obj []) o.resourcesResp with
        | (.error _, c3, _) => c3
        | (.ok r2, c3, _) =>
          match guardedFieldOf r2 "resources" with
          | .ok (some v) => { c3 with resources := v }
          | _ => c3
      .ok { c4 with is_healthy := true, last_health_check := some now }

/-- The `MCPServerConfig(name=..., url=..., ...)` dataclass call at the
top of `register_server`: caller-supplied fields, runtime state at its
defaults (`is_healthy=False`, empty tools/resources, `error_count=0`). -/
def freshConfig (name url description : String) (auth_type auth_token : Option String)
    (metadata : Option (List (String × Json))) : MCPServerConfig :=
  { name := name, url := url, description := description,
    auth_type := auth_type, auth_token := auth_token,
    metadata := metadata.getD [] }

/-- Python method `register_server(name, url, description, auth_type, auth_token,
metadata)`.  Constructs a fresh config, runs discovery against it, and
only then stores it; if discovery raises, the `except` branch returns
`False` and the fresh config is discarded without touching
`self.servers`. -/
def register_server (servers : Registry) (name url description : String)
    (auth_type auth_token : Option String) (metadata : Option (List (String × Json)))
    (o : DiscoveryOutcome) (now : Nat) : Bool × Registry :=
  let config := freshConfig name url description auth_type auth_token metadata
  match discover_server_capabilities config o now with
  | .error _ => (false, servers)
  | .ok c => (true, dictSet servers name c)

/-- Python method `unregister_server(name)`. -/
def unregister_server (servers : Registry) (name : String) : Bool × Registry :=
  if dictHasKey servers name then (true, dictRemove servers name)
  else (false, servers)

/-- The failure modes of `call_tool` / `read_resource`:
`ValueError("Unknown MCP server: ...")`,
`RuntimeError("MCP server ... is not healthy")`, and a propagated
connector exception. -/
inductive FedError where
  | unknownServer (name : String)
  | unhealthy (name : String)
  | callFailed
deriving Repr, DecidableEq

/-- Python method `call_tool(server_name, tool_name, arguments)`.  Checks registry
membership, then `config.is_healthy` (never `config.enabled`), then
delegates to `_call_mcp_method` with method `tools/call` and params
`{"name": tool_name, "arguments": arguments}`.  The returned registry
reflects the in-place `error_count` increment on a failed call; the
request list is the network trace. -/
def call_tool (servers : Registry) (server_name tool_name : String) (arguments : Json)
    (resp : Except Unit (Option Json)) :
    Except FedError (Option Json) × Registry × List MCPRequest :=
  match dictGet servers server_name with
  | none => (.error (.unknownServer server_name), servers, [])
  | some config =>
    if !config.is_healthy then (.error (.unhealthy server_name), servers, [])
    else
      match call_mcp_method config "tools/call"
          (.obj [("name", .str tool_name), ("arguments", arguments)]) resp with
      | (.ok r, _, reqs) => (.ok r, servers, reqs)
      | (.error _, c, reqs) => (.error .callFailed, dictSet servers server_name c, reqs)

/-- Python method `read_resource(server_name, uri)`.  Only the registry-membership
check guards the delegation — no `is_healthy` or `enabled` test —
then `_call_mcp_method` with method `resources/read` and params
`{"uri": uri}`. -/
def read_resource (servers : Registry) (server_name uri : String)
    (resp : Except Unit (Option Json)) :
    Except FedError (Option Json) × Registry × List MCPRequest :=
  match dictGet servers server_name with
  | none => (.error (.unknownServer server_name), servers, [])
  | some config =>
    match call_mcp_method config "resources/read" (.obj [("uri", .str uri)]) resp with
    | (.ok r, _, reqs) => (.ok r, servers, reqs)
    | (.error _, c, reqs) => (.error .callFailed, dictSet servers server_name c, reqs)

/-- The dict literal built for one tool inside `get_all_tools`:
`tool["name"]` raises `KeyError` when absent (the f-string for the
"name" entry is evaluated first), while `description` and `inputSchema`
fall back to `""` and `{}` via `.get`. -/
def namespace_tool (server_name : String) (tool : Json) : Except Unit Json :=
  match tool.get "name" with
  | .error _ => .error ()
  | .ok nm =>
    .ok (.obj [
      ("name", .str (server_name ++ "." ++ nm.pyStr)),
      ("description", .str ("[" ++ server_name ++ "] " ++ (tool.getD "description" (.str "")).pyStr)),
      ("server", .str server_name),
      ("original_name", nm),
      ("inputSchema", tool.getD "inputSchema" (.obj []))])

/-- The inner loop body of `get_all_tools` over the already-obtained
iteration items: build the namespaced record for every tool in order,
propagating the exception of any item whose `tool["name"]` raises — a
`KeyError` on a dict lacking the key, a `TypeError` on the non-dict
items produced by iterating a string or a dict. -/
def namespace_tools (server_name : String) : List Json → Except Unit (List Json)
  | [] => .ok []
  | t :: ts =>
    match namespace_tool server_name t with
    | .error _ => .error ()
    | .ok e =>
      match namespace_tools server_name ts with
      | .error _ => .error ()
      | .ok es => .ok (e :: es)

/-- Python method `get_all_tools()`: walk the registry in iteration order, skip
backends with `not enabled or not is_healthy`, and namespace every
iterated tool of the remaining backends in order.  The whole call raises
(`.error`) as soon as `for tool in config.tools` hits a non-iterable
stored value, or a tool record lacks a "name" key (`tool["name"]` also
raises on the non-dict items produced by iterating a string or a dict). -/
def get_all_tools : Registry → Except Unit (List Json)
  | [] => .ok []
  | (server_name, config) :: rest =>
    if !config.enabled || !config.is_healthy then get_all_tools rest
    else
      match pyIter config.tools with
      | .error _ => .error ()
      | .ok tools =>
        match namespace_tools server_name tools with
        | .error _ => .error ()
        | .ok ts =>
          match get_all_tools rest with
          | .error _ => .error ()
          | .ok restTools => .ok (ts ++ restTools)

/-- Python method `get_server_info(name)`: `None` when the name is absent (that
check happens before anything can raise); for a present name, building
the info dict calls `len` on the stored `tools`/`resources` values and
raises (`some (.error ())`) when either is unsized. -/
def get_server_info (servers : Registry) (name : String) : Option (Except Unit Json) :=
  match dictGet servers name with
  | none => none
  | some config =>
    some (
      match pyLen config.tools, pyLen config.resources with
      | .ok tc, .ok rc =>
        .ok (.obj [
          ("name", .str config.name),
          ("url", .str config.url),
          ("description", .str config.description),
          ("enabled", .bool config.enabled),
          ("is_healthy", .bool config.is_healthy),
          ("last_health_check",
            match config.last_health_check with
            | some t => .str (toString t)
            | none => .null),
          ("tools_count", .num (Int.ofNat tc)),
          ("resources_count", .num (Int.ofNat rc)),
          ("error_count", .num (Int.ofNat config.error_count)),
          ("metadata", .obj config.metadata)])
      | _, _ => .error ())

/-- The comprehension body of `list_servers()`: one `get_server_info`
result per given key, aborting the whole list at the first entry whose
info dict raises. -/
def list_servers_go (servers : Registry) : List String → Except Unit (List (Option Json))
  | [] => .ok []
  | k :: ks =>
    match get_server_info servers k with
    | none =>
      match list_servers_go servers ks with
      | .error _ => .error ()
      | .ok l => .ok (none :: l)
    | some (.error _) => .error ()
    | some (.ok j) =>
      match list_servers_go servers ks with
      | .error _ => .error ()
      | .ok l => .ok (some j :: l)

/-- Python method `list_servers()`: `[get_server_info(name) for name in keys]` —
raises if any entry's info dict does. -/
def list_servers (servers : Registry) : Except Unit (List (Option Json)) :=
  list_servers_go servers (servers.map Prod.fst)

/-- The dict returned by `get_stats()`. -/
structure Stats where
  total_servers : Nat
  healthy_servers : Nat
  total_tools : Nat
  total_resources : Nat
  servers : List (Option Json)
deriving Repr, DecidableEq

/-- One of the generator sums of `get_stats`:
`sum(len(proj(s)) for s in servers.values() if s.is_healthy)`, raising at
the first healthy entry whose projected value is unsized. -/
def sum_healthy_lens (proj : MCPServerConfig → Json) : Registry → Except Unit Nat
  | [] => .ok 0
  | kv :: rest =>
    if kv.2.is_healthy then
      match pyLen (proj kv.2), sum_healthy_lens proj rest with
      | .ok n, .ok m => .ok (n + m)
      | _, _ => .error ()
    else sum_healthy_lens proj rest

/-- Python method `get_stats()`: totals over all entries, healthy count and
tool/resource sums over entries with `is_healthy` only (`enabled` is
not consulted); raises when a healthy entry's stored tools/resources is
unsized (the sums) or any entry's is (the embedded `list_servers()`). -/
def get_stats (servers : Registry) : Except Unit Stats :=
  match sum_healthy_lens (fun c => c.tools) servers,
        sum_healthy_lens (fun c => c.resources) servers,
        list_servers servers with
  | .ok tt, .ok tr, .ok sv =>
    .ok { total_servers := servers.length,
          healthy_servers := (servers.map (fun kv => if kv.2.is_healthy then 1 else 0)).sum,
          total_tools := tt,
          total_resources := tr,
          servers := sv }
  | _, _, _ => .error ()

/-- One iteration of the `while True` body of `_health_monitor` (after
the inter-cycle sleep): for every entry, skip it when
`not config.enabled`; otherwise run discovery with that backend's
network outcome.  Success resets `is_healthy := true, error_count := 0`;
failure sets `is_healthy := false`, adds the monitor's own
`error_count += 1` on top of the one `_call_mcp_method` already applied,
and flips `enabled := false` once `error_count > 5`. -/
def health_monitor_cycle (servers : Registry) (outcomes : String → DiscoveryOutcome)
    (now : Nat) : Registry :=
  servers.map (fun kv =>
    let name := kv.1
    let config := kv.2
    if !config.enabled then kv
    else
      match discover_server_capabilities config (outcomes name) now with
      | .ok c => (name, { c with is_healthy := true, error_count := 0 })
      | .error c =>
        let c2 := { c with is_healthy := false, error_count := c.error_count + 1 }
        if c2.error_count > 5 then (name, { c2 with enabled := false })
        else (name, c2))

/-! ## Basic facts about the registry dictionary -/

theorem dictGet_eq_none_of_not_hasKey (servers : Registry) (name : String)
    (h : dictHasKey servers name = false) : dictGet servers name = none := by
  induction servers with
  | nil => rfl
  | cons kv rest ih =>
    simp only [dictHasKey, List.any_cons, Bool.or_eq_false_iff] at h
    simp only [dictGet, List.find?_cons, h.1]
    exact ih h.2

theorem dictHasKey_of_dictGet_some (servers : Registry) (name : String)
    (c : MCPServerConfig) (h : dictGet servers name = some c) :
    dictHasKey servers name = true := by
  by_contra hk
  rw [dictGet_eq_none_of_not_hasKey servers name (Bool.eq_false_iff.mpr hk)] at h
  exact Option.noConfusion h

/-- Some configuration data used by the concrete witnesses below. -/
def sampleTool : Json :=
  .obj [("name", .str "ping"), ("description", .str "a ping tool"),
        ("inputSchema", .obj [("type", .str "object")])]

/-- An unhealthy (but enabled) registered backend, as it looks right
after a failed health cycle. -/
def unhealthyConfig : MCPServerConfig :=
  { name := "beta", url := "http://beta.example", enabled := true,
    is_healthy := false, tools := .arr [sampleTool], error_count := 1 }

/-- A healthy, enabled backend with one discovered tool. -/
def healthyConfig : MCPServerConfig :=
  { name := "alpha", url := "http://alpha.example", enabled := true,
    is_healthy := true, tools := .arr [sampleTool],
    last_health_check := some 1 }

/-- A disabled but healthy backend with one stored tool. -/
def disabledConfig : MCPServerConfig :=
  { name := "gamma", url := "http://gamma.example", enabled := false,
    is_healthy := true, tools := .arr [sampleTool] }

/-- The all-failing network outcome: both discovery calls raise at the
connector level. -/
def failOut : DiscoveryOutcome := ⟨.error (), .error ()⟩

/-- A discovery outcome whose exchanges succeed with no "result" value,
so nothing is stored and discovery completes. -/
def okOut : DiscoveryOutcome := ⟨.ok none, .ok none⟩

/-- A discovery outcome whose `tools/list` exchange succeeds but returns
the truthy non-container `42`, making the tools guard raise `TypeError`. -/
def typeErrOut : DiscoveryOutcome := ⟨.ok (some (.num 42)), .ok none⟩

/-! ## C3: the invocation gates of `call_tool` -/

/-- C3: `call_tool` on a name absent from the registry fails with the
unknown-server error, and on a registered backend with
`is_healthy=false` fails with the not-healthy error — in both cases
with no network request issued and the registry returned unchanged;
the `enabled` flag is not consulted (the statement holds for every
config value, whatever its `enabled` field). -/
theorem call_tool_health_gate (servers : Registry) (server_name tool_name : String)
    (arguments : Json) (resp : Except Unit (Option Json)) :
    (dictGet servers server_name = none →
      call_tool servers server_name tool_name arguments resp =
        (.error (.unknownServer server_name), servers, [])) ∧
    (∀ c, dictGet servers server_name = some c → c.is_healthy = false →
      call_tool servers server_name tool_name arguments resp =
        (.error (.unhealthy server_name), servers, [])) := by
  constructor
  · intro h
    simp [call_tool, h]
  · intro c hc hh
    simp [call_tool, hc, hh]

/-- Witness for C3 at a concrete registry: one unhealthy-but-enabled
backend and one absent name. -/
theorem call_tool_health_gate_witness :
    call_tool [("beta", unhealthyConfig)] "beta" "ping" (.obj []) (.ok none) =
      (.error (.unhealthy "beta"), [("beta", unhealthyConfig)], []) ∧
    call_tool [("beta", unhealthyConfig)] "gamma" "ping" (.obj []) (.ok none) =
      (.error (.unknownServer "gamma"), [("beta", unhealthyConfig)], []) :=
  ⟨(call_tool_health_gate [("beta", unhealthyConfig)] "beta" "ping" (.obj []) (.ok none)).2
      unhealthyConfig (by decide) (by decide),
   (call_tool_health_gate [("beta", unhealthyConfig)] "gamma" "ping" (.obj []) (.ok none)).1
      (by decide)⟩

/-! ## C9: `read_resource` has no health gate -/

/-- C9: `read_resource` performs only the unknown-backend check: for an
absent name it fails with the unknown-server error without issuing a
request; for every registered config — whatever its `is_healthy` and
`enabled` flags — it issues exactly the `resources/read` request with
params `{"uri": uri}` against the backend's URL, returns the connector's
result verbatim on success, and never produces the unhealthy or
unknown-server errors. -/
theorem read_resource_no_health_gate (servers : Registry) (server_name uri : String)
    (resp : Except Unit (Option Json)) :
    (dictGet servers server_name = none →
      read_resource servers server_name uri resp =
        (.error (.unknownServer server_name), servers, [])) ∧
    (∀ c, dictGet servers server_name = some c →
      (read_resource servers server_name uri resp).2.2 =
        [⟨c.url, "resources/read", .obj [("uri", .str uri)], authHeaderOf c⟩] ∧
      (∀ r, resp = .ok r → (read_resource servers server_name uri resp).1 = .ok r) ∧
      (read_resource servers server_name uri resp).1 ≠ .error (.unhealthy server_name) ∧
      (read_resource servers server_name uri resp).1 ≠ .error (.unknownServer server_name)) := by
  constructor
  · intro h
    simp [read_resource, h]
  · intro c hc
    refine ⟨?_, ?_, ?_, ?_⟩
    · cases resp with
      | ok r => simp [read_resource, hc, call_mcp_method]
      | error e => simp [read_resource, hc, call_mcp_method]
    · intro r hr
      subst hr
      simp [read_resource, hc, call_mcp_method]
    · cases resp with
      | ok r => simp [read_resource, hc, call_mcp_method]
      | error e => simp [read_resource, hc, call_mcp_method]
    · cases resp with
      | ok r => simp [read_resource, hc, call_mcp_method]
      | error e => simp [read_resource, hc, call_mcp_method]

/-- Witness for C9: a disabled and unhealthy backend is still read from,
with the delegated `resources/read` request visible in the trace. -/
theorem read_resource_no_health_gate_witness :
    (read_resource [("beta", unhealthyConfig)] "beta" "cfg://x" (.ok (some (.str "data")))).2.2 =
      [⟨"http://beta.example", "resources/read", .obj [("uri", .str "cfg://x")], none⟩] ∧
    (read_resource [("beta", unhealthyConfig)] "beta" "cfg://x" (.ok (some (.str "data")))).1 =
      .ok (some (.str "data")) :=
  ⟨((read_resource_no_health_gate [("beta", unhealthyConfig)] "beta" "cfg://x"
        (.ok (some (.str "data")))).2 unhealthyConfig (by decide)).1,
   ((read_resource_no_health_gate [("beta", unhealthyConfig)] "beta" "cfg://x"
        (.ok (some (.str "data")))).2 unhealthyConfig (by decide)).2.1
      (some (.str "data")) rfl⟩

/-! ## C6: `get_stats` counts -/

theorem healthy_count_eq (servers : Registry) :
    (servers.map (fun kv => if kv.2.is_healthy then 1 else 0)).sum =
      (servers.filter (fun kv => kv.2.is_healthy)).length := by
  induction servers with
  | nil => rfl
  | cons kv rest ih =>
    by_cases hh : kv.2.is_healthy <;> simp [List.filter_cons, hh, ih]
    omega

theorem pyLen_eq_len (j : Json) (h : (pyLen j).isOk = true) :
    pyLen j = .ok j.len := by
  cases j <;> first
    | rfl
    | simp [pyLen, Except.isOk, Except.toBool] at h

theorem dictGet_mem (servers : Registry) (k : String) (c : MCPServerConfig)
    (h : dictGet servers k = some c) : ∃ kv, kv ∈ servers ∧ kv.2 = c := by
  unfold dictGet at h
  cases hf : servers.find? (fun kv => kv.1 == k) with
  | none => rw [hf] at h; cases h
  | some kv =>
    rw [hf] at h
    exact ⟨kv, List.mem_of_find?_eq_some hf, Option.some.inj h⟩

theorem sum_healthy_lens_ok (proj : MCPServerConfig → Json) (servers : Registry)
    (h : ∀ kv ∈ servers, kv.2.is_healthy = true → (pyLen (proj kv.2)).isOk = true) :
    sum_healthy_lens proj servers =
      .ok (((servers.filter (fun kv => kv.2.is_healthy)).map
        (fun kv => (proj kv.2).len)).sum) := by
  induction servers with
  | nil => rfl
  | cons kv rest ih =>
    have ihr := ih (fun kv hm hh => h kv (by simp [hm]) hh)
    by_cases hh : kv.2.is_healthy
    · have hk := pyLen_eq_len _ (h kv (by simp) hh)
      simp [sum_healthy_lens, List.filter_cons, hh, hk, ihr]
    · simp [sum_healthy_lens, List.filter_cons, hh, ihr]

theorem get_server_info_sized (servers : Registry) (k : String)
    (h : ∀ kv ∈ servers, (pyLen kv.2.tools).isOk = true ∧
      (pyLen kv.2.resources).isOk = true) :
    ∀ e, get_server_info servers k = some e → e.isOk = true := by
  intro e he
  unfold get_server_info at he
  cases hg : dictGet servers k with
  | none => rw [hg] at he; cases he
  | some c =>
    rw [hg] at he
    obtain ⟨kv, hm, hc⟩ := dictGet_mem servers k c hg
    obtain ⟨h1, h2⟩ := h kv hm
    rw [hc] at h1 h2
    simp only [pyLen_eq_len _ h1, pyLen_eq_len _ h2] at he
    rw [← Option.some.inj he]
    rfl

theorem list_servers_go_ok (servers : Registry) (ks : List String)
    (h : ∀ kv ∈ servers, (pyLen kv.2.tools).isOk = true ∧
      (pyLen kv.2.resources).isOk = true) :
    ∃ l, list_servers_go servers ks = .ok l := by
  induction ks with
  | nil => exact ⟨[], rfl⟩
  | cons k ks ih =>
    obtain ⟨l, hl⟩ := ih
    cases hg : get_server_info servers k with
    | none => exact ⟨none :: l, by simp [list_servers_go, hg, hl]⟩
    | some e =>
      have hok := get_server_info_sized servers k h e hg
      cases e with
      | error u => simp [Except.isOk, Except.toBool] at hok
      | ok j => exact ⟨some j :: l, by simp [list_servers_go, hg, hl]⟩

/-- C6 as stated is false on the code: at the reachable registry state
whose single healthy backend stored `tools = 5` (discovery keeps any
`{"tools": v}` value as-is), `get_stats` raises a `TypeError` inside
`len(...)` and returns no totals at all, although the registry has one
entry the claim's `totalBackends` would count. -/
theorem get_stats_claim_counterexample :
    get_stats [("alpha", { healthyConfig with tools := .num 5 })] = .error () ∧
    ([("alpha", { healthyConfig with tools := .num 5 })] : Registry).length = 1 := by
  decide

/-- C6 amended: for every registry state whose stored `tools` and
`resources` values all have a Python length (lists — as discovery
normally stores — strings or dicts; never `None`, booleans or numbers),
`get_stats` returns totals with `total_servers` counting all entries
(unhealthy and disabled included), `healthy_servers` counting the
entries with `is_healthy=true`, and `total_tools` / `total_resources`
summing the stored lengths over exactly the healthy entries (`enabled`
plays no role); at states violating that condition `get_stats` instead
raises (see the counterexample). -/
theorem get_stats_correct (servers : Registry)
    (h : ∀ kv ∈ servers, (pyLen kv.2.tools).isOk = true ∧
      (pyLen kv.2.resources).isOk = true) :
    ∃ st, get_stats servers = .ok st ∧
      st.total_servers = servers.length ∧
      st.healthy_servers = (servers.filter (fun kv => kv.2.is_healthy)).length ∧
      st.total_tools =
        ((servers.filter (fun kv => kv.2.is_healthy)).map (fun kv => kv.2.tools.len)).sum ∧
      st.total_resources =
        ((servers.filter (fun kv => kv.2.is_healthy)).map (fun kv => kv.2.resources.len)).sum := by
  have ht := sum_healthy_lens_ok (fun c => c.tools) servers
    (fun kv hm _ => (h kv hm).1)
  have hr := sum_healthy_lens_ok (fun c => c.resources) servers
    (fun kv hm _ => (h kv hm).2)
  obtain ⟨l, hl⟩ := list_servers_go_ok servers (servers.map Prod.fst) h
  have hst : get_stats servers = .ok
      { total_servers := servers.length,
        healthy_servers := (servers.map (fun kv => if kv.2.is_healthy then 1 else 0)).sum,
        total_tools := ((servers.filter (fun kv => kv.2.is_healthy)).map
          (fun kv => kv.2.tools.len)).sum,
        total_resources := ((servers.filter (fun kv => kv.2.is_healthy)).map
          (fun kv => kv.2.resources.len)).sum,
        servers := l } := by
    simp only [get_stats, ht, hr, list_servers, hl]
  exact ⟨_, hst, rfl, healthy_count_eq servers, rfl, rfl⟩

/-- Witness for the amended C6 at a three-backend registry: healthy,
unhealthy and disabled-but-healthy entries, all storing genuine lists. -/
theorem get_stats_correct_witness :
    ∃ st, get_stats [("alpha", healthyConfig), ("beta", unhealthyConfig),
        ("gamma", disabledConfig)] = .ok st ∧
      st.total_servers = 3 ∧ st.healthy_servers = 2 ∧
      st.total_tools = 2 ∧ st.total_resources = 0 := by
  obtain ⟨st, h1, h2, h3, h4, h5⟩ := get_stats_correct
    [("alpha", healthyConfig), ("beta", unhealthyConfig), ("gamma", disabledConfig)]
    (by decide)
  refine ⟨st, h1, ?_, ?_, ?_, ?_⟩
  · rw [h2]; rfl
  · rw [h3]; rfl
  · rw [h4]; rfl
  · rw [h5]; rfl

/-! ## C7: unregistering is an idempotent removal -/

theorem dictHasKey_dictRemove (servers : Registry) (name : String) :
    dictHasKey (dictRemove servers name) name = false := by
  induction servers with
  | nil => rfl
  | cons kv rest ih =>
    simp only [dictRemove, List.filter_cons] at ih ⊢
    by_cases h : kv.1 == name
    · have hf : (kv.1 != name) = false := by simp [bne, h]
      rw [hf, if_neg (by simp)]
      exact ih
    · have hf : (kv.1 != name) = true := by simp [bne, h]
      rw [hf, if_pos rfl]
      simp only [dictHasKey, List.any_cons, h, Bool.false_or]
      exact ih

/-- C7: `unregister_server` returns success and removes the entry when
the name is registered, returns not-found and changes nothing when it is
absent; after the call the name resolves to nothing (`dictGet` and
`get_server_info` are both `none`, so `list_servers` can never show it
again), and a second call is a not-found no-op. -/
theorem unregister_idempotent (servers : Registry) (name : String) :
    (dictHasKey servers name = true → (unregister_server servers name).1 = true) ∧
    (dictHasKey servers name = false → unregister_server servers name = (false, servers)) ∧
    dictGet (unregister_server servers name).2 name = none ∧
    get_server_info (unregister_server servers name).2 name = none ∧
    unregister_server (unregister_server servers name).2 name =
      (false, (unregister_server servers name).2) := by
  have hrem := dictHasKey_dictRemove servers name
  by_cases h : dictHasKey servers name
  · have h2 := dictGet_eq_none_of_not_hasKey _ _ hrem
    simp [unregister_server, h, hrem, h2, get_server_info]
  · have h0 : dictHasKey servers name = false := Bool.eq_false_iff.mpr h
    have h2 := dictGet_eq_none_of_not_hasKey _ _ h0
    simp [unregister_server, h0, h2, get_server_info]

/-- Witness for C7: a present name succeeds, an absent one is a
no-op returning not-found. -/
theorem unregister_idempotent_witness :
    (unregister_server [("beta", unhealthyConfig)] "beta").1 = true ∧
    unregister_server [("beta", unhealthyConfig)] "gamma" =
      (false, [("beta", unhealthyConfig)]) :=
  ⟨(unregister_idempotent [("beta", unhealthyConfig)] "beta").1 (by decide),
   (unregister_idempotent [("beta", unhealthyConfig)] "gamma").2.1 (by decide)⟩

/-! ## C1: registration when discovery fails -/

/-- C1 as stated is false on the code: registering a backend whose
initial `tools/list` discovery fails makes `register_server` return
`False` and store nothing — the backend does not appear in the registry
(as unhealthy or otherwise), although config construction did not throw. -/
theorem register_discovery_failure_counterexample :
    register_server [] "beta" "http://beta.example" "" none none none
      ⟨.error (), .error ()⟩ 0 = (false, []) ∧
    dictGet (register_server [] "beta" "http://beta.example" "" none none none
      ⟨.error (), .error ()⟩ 0).2 "beta" = none ∧
    get_server_info (register_server [] "beta" "http://beta.example" "" none none none
      ⟨.error (), .error ()⟩ 0).2 "beta" = none := by
  decide

/-- C1 amended: `register_server` stores the freshly constructed config
and returns success exactly when the initial discovery run succeeds;
when discovery raises it returns failure and leaves the registry
unchanged, so the freshly constructed config is discarded and the
backend does not appear in listings. -/
theorem register_stores_only_on_successful_discovery (servers : Registry)
    (name url description : String) (auth_type auth_token : Option String)
    (metadata : Option (List (String × Json))) (o : DiscoveryOutcome) (now : Nat) :
    (∀ c, discover_server_capabilities
        (freshConfig name url description auth_type auth_token metadata) o now = .error c →
      register_server servers name url description auth_type auth_token metadata o now =
        (false, servers)) ∧
    (∀ c, discover_server_capabilities
        (freshConfig name url description auth_type auth_token metadata) o now = .ok c →
      register_server servers name url description auth_type auth_token metadata o now =
        (true, dictSet servers name c)) := by
  constructor <;> intro c h <;> simp [register_server, h]

/-- Witness for the amended C1: a failing and a succeeding registration
against the empty registry. -/
theorem register_stores_only_on_successful_discovery_witness :
    register_server [] "beta" "u" "" none none none ⟨.error (), .error ()⟩ 0 =
      (false, []) ∧
    register_server [] "alpha" "u" "" none none none ⟨.ok none, .ok none⟩ 0 =
      (true, [("alpha", { freshConfig "alpha" "u" "" none none none with
                          is_healthy := true,
                          last_health_check := some 0 })]) :=
  ⟨(register_stores_only_on_successful_discovery [] "beta" "u" "" none none none
      ⟨.error (), .error ()⟩ 0).1
      { freshConfig "beta" "u" "" none none none with error_count := 1 } (by decide),
   (register_stores_only_on_successful_discovery [] "alpha" "u" "" none none none
      ⟨.ok none, .ok none⟩ 0).2
      { freshConfig "alpha" "u" "" none none none with
        is_healthy := true,
        last_health_check := some 0 } (by decide)⟩

/-! ## C5: discovery result without a "tools" field -/

/-- C5 as stated is false on the code: a successful `tools/list`
exchange whose result carries no "tools" key does NOT set `config.tools`
to the empty list — it leaves the field at its prior value, here a
one-element tool list. -/
theorem discovery_missing_tools_counterexample :
    discover_server_capabilities healthyConfig
      ⟨.ok (some (.obj [("other", .bool true)])), .ok none⟩ 7 =
      .ok { healthyConfig with last_health_check := some 7 } ∧
    ({ healthyConfig with last_health_check := some 7 } : MCPServerConfig).tools ≠
      .arr [] := by
  decide

/-- Helper for the amended C5: when the tools guard performs no
assignment and does not raise, discovery succeeds with `tools`
untouched, whatever the `resources/list` exchange does. -/
theorem discover_skip_tools (config : MCPServerConfig) (r : Option Json)
    (rr : Except Unit (Option Json)) (now : Nat)
    (hg : guardedFieldOf r "tools" = .ok none) :
    ∃ c, discover_server_capabilities config ⟨.ok r, rr⟩ now = .ok c ∧
      c.tools = config.tools ∧ c.is_healthy = true ∧
      c.last_health_check = some now := by
  cases rr with
  | error e =>
    exact ⟨{ config with
              error_count := config.error_count + 1,
              is_healthy := true,
              last_health_check := some now },
           by simp [discover_server_capabilities, call_mcp_method, hg], rfl, rfl, rfl⟩
  | ok r2 =>
    cases hg2 : guardedFieldOf r2 "resources" with
    | error e =>
      exact ⟨{ config with
                is_healthy := true,
                last_health_check := some now },
             by simp [discover_server_capabilities, call_mcp_method, hg, hg2], rfl, rfl, rfl⟩
    | ok mv =>
      cases mv with
      | none =>
        exact ⟨{ config with
                  is_healthy := true,
                  last_health_check := some now },
               by simp [discover_server_capabilities, call_mcp_method, hg, hg2], rfl, rfl, rfl⟩
      | some v =>
        exact ⟨{ config with
                  resources := v,
                  is_healthy := true,
                  last_health_check := some now },
               by simp [discover_server_capabilities, call_mcp_method, hg, hg2], rfl, rfl, rfl⟩

/-- C5 amended: when the `tools/list` call succeeds and its result is
falsy or its membership test for "tools" comes out false (a dict lacking
the key, a string without the substring, a list without the element),
`config.tools` is left unchanged — the empty list only for a freshly
constructed config — and discovery still completes successfully with
`is_healthy=true` and `last_health_check` stamped.  When instead the
truthy result makes the guard raise a `TypeError` (`"tools" in resp` on
a non-container, or the `resp["tools"]` subscript after a string/list
membership hit), discovery FAILS, with the config unchanged and no
connector `error_count` increment. -/
theorem discovery_missing_tools_leaves_tools_unchanged (config : MCPServerConfig)
    (tr rr : Except Unit (Option Json)) (now : Nat) (r : Option Json)
    (hr : tr = .ok r) :
    ((r = none ∨ ∃ j, r = some j ∧
        (j.truthy = false ∨ pyContains j "tools" = .ok false)) →
      ∃ c, discover_server_capabilities config ⟨tr, rr⟩ now = .ok c ∧
        c.tools = config.tools ∧ c.is_healthy = true ∧
        c.last_health_check = some now) ∧
    (∀ j, r = some j → j.truthy = true →
      (pyContains j "tools" = .error () ∨
        (pyContains j "tools" = .ok true ∧ j.get "tools" = .error ())) →
      discover_server_capabilities config ⟨tr, rr⟩ now = .error config) := by
  subst hr
  constructor
  · intro hcond
    apply discover_skip_tools
    rcases hcond with rfl | ⟨j, rfl, hj | hj⟩
    · rfl
    · simp [guardedFieldOf, hj]
    · by_cases ht : j.truthy <;> simp [guardedFieldOf, ht, hj]
  · intro j hj htr hre
    subst hj
    have hg : guardedFieldOf (some j) "tools" = .error () := by
      rcases hre with h | ⟨h1, h2⟩
      · simp [guardedFieldOf, htr, h]
      · simp [guardedFieldOf, htr, h1, h2]
    simp [discover_server_capabilities, call_mcp_method, hg]

/-- Witness for the amended C5: a truthy dict result without a "tools"
key leaves the pre-existing one-tool list in place and discovery
succeeds, while a truthy integer result makes discovery fail with the
config unchanged. -/
theorem discovery_missing_tools_leaves_tools_unchanged_witness :
    (∃ c, discover_server_capabilities healthyConfig
        ⟨.ok (some (.obj [("other", .bool true)])), .ok none⟩ 7 = .ok c ∧
      c.tools = healthyConfig.tools ∧ c.is_healthy = true ∧
      c.last_health_check = some 7) ∧
    discover_server_capabilities healthyConfig ⟨.ok (some (.num 1)), .ok none⟩ 7 =
      .error healthyConfig :=
  ⟨(discovery_missing_tools_leaves_tools_unchanged healthyConfig
      (.ok (some (.obj [("other", .bool true)]))) (.ok none) 7
      (some (.obj [("other", .bool true)])) rfl).1
      (Or.inr ⟨_, rfl, Or.inr (by decide)⟩),
   (discovery_missing_tools_leaves_tools_unchanged healthyConfig
      (.ok (some (.num 1))) (.ok none) 7 (some (.num 1)) rfl).2
      (.num 1) rfl (by decide) (Or.inl (by decide))⟩

/-! ## C8: duplicate registration is last-write-wins -/

theorem find?_map_update (s : Registry) (n : String) (c : MCPServerConfig)
    (h : dictHasKey s n = true) :
    (s.map (fun kv => if kv.1 == n then (n, c) else kv)).find?
      (fun kv => kv.1 == n) = some (n, c) := by
  induction s with
  | nil => simp [dictHasKey] at h
  | cons kv rest ih =>
    rw [List.map_cons]
    by_cases h1 : kv.1 == n
    · rw [if_pos h1]
      exact List.find?_cons_of_pos _ (by simp)
    · have h2 : dictHasKey rest n = true := by
        simpa [dictHasKey, h1] using h
      rw [if_neg h1]
      have hstep : List.find? (fun q : String × MCPServerConfig => q.1 == n)
          (kv :: rest.map (fun q => if (q.1 == n) = true then (n, c) else q)) =
          List.find? (fun q => q.1 == n)
            (rest.map (fun q => if (q.1 == n) = true then (n, c) else q)) :=
        List.find?_cons_of_neg _ h1
      rw [hstep]
      exact ih h2

theorem find?_append_single (s : Registry) (n : String) (c : MCPServerConfig)
    (h : dictHasKey s n = false) :
    (s ++ [(n, c)]).find? (fun kv => kv.1 == n) = some (n, c) := by
  induction s with
  | nil => simp
  | cons kv rest ih =>
    simp only [dictHasKey, List.any_cons, Bool.or_eq_false_iff] at h
    rw [List.cons_append]
    have hstep : List.find? (fun q : String × MCPServerConfig => q.1 == n)
        (kv :: (rest ++ [(n, c)])) =
        List.find? (fun q => q.1 == n) (rest ++ [(n, c)]) :=
      List.find?_cons_of_neg _ (by simp [h.1])
    rw [hstep]
    exact ih h.2

theorem dictGet_dictSet_self (s : Registry) (n : String) (c : MCPServerConfig) :
    dictGet (dictSet s n c) n = some c := by
  by_cases hk : dictHasKey s n
  · simp only [dictGet, dictSet, hk, if_true, find?_map_update s n c hk]
  · simp only [dictGet, dictSet, hk, Bool.false_eq_true, if_false,
      find?_append_single s n c (Bool.eq_false_iff.mpr hk)]

theorem keys_dictSet (s : Registry) (n : String) (c : MCPServerConfig) :
    (dictSet s n c).map Prod.fst =
      if dictHasKey s n then s.map Prod.fst else s.map Prod.fst ++ [n] := by
  by_cases hk : dictHasKey s n
  · simp only [dictSet, if_pos hk, List.map_map]
    apply List.map_congr_left
    intro kv _
    by_cases h1 : kv.1 = n
    · simp [h1]
    · simp [h1]
  · simp [dictSet, hk]

theorem dictHasKey_iff_mem_keys (s : Registry) (n : String) :
    dictHasKey s n = true ↔ n ∈ s.map Prod.fst := by
  simp only [dictHasKey, List.any_eq_true, List.mem_map, beq_iff_eq]

theorem nodup_keys_dictSet (s : Registry) (n : String) (c : MCPServerConfig)
    (h : (s.map Prod.fst).Nodup) : ((dictSet s n c).map Prod.fst).Nodup := by
  rw [keys_dictSet]
  by_cases hk : dictHasKey s n
  · simpa [hk] using h
  · have hn : n ∉ s.map Prod.fst := fun hm =>
      hk ((dictHasKey_iff_mem_keys s n).mpr hm)
    simp only [if_neg hk]
    simp [List.nodup_append, h, hn]

theorem filter_key_length (s : Registry) (n : String) :
    (s.filter (fun kv => kv.1 == n)).length = (s.map Prod.fst).count n := by
  induction s with
  | nil => rfl
  | cons kv rest ih =>
    by_cases h1 : kv.1 == n
    · simp [List.filter_cons, h1, List.count_cons, eq_of_beq h1, ih]
    · simp [List.filter_cons, h1, List.count_cons, ih]

/-- C8 as stated is false on the code: registering "alpha" at "u1"
(discovery succeeding) and then registering "alpha" again at "u2" with
discovery failing leaves the registry's single entry still carrying the
FIRST call's URL — the second call's endpoint and fields are not
reflected, because the failing second call stores nothing. -/
theorem register_last_write_wins_counterexample :
    (register_server (register_server [] "alpha" "u1" "" none none none okOut 0).2
      "alpha" "u2" "" none none none failOut 1).1 = false ∧
    (dictGet (register_server
        (register_server [] "alpha" "u1" "" none none none okOut 0).2
        "alpha" "u2" "" none none none failOut 1).2 "alpha").map
      MCPServerConfig.url = some "u1" ∧
    "u1" ≠ "u2" := by
  decide

/-- C8 amended: starting from any registry whose keys are unique,
registering the same name twice leaves at most one entry under that
name and keeps the keys unique, but which config it holds depends on
the discovery outcomes: if both discoveries succeed, the entry is
exactly the second call's config (wholesale overwrite, never a merge);
if only the first succeeds, the entry is exactly the first call's
config, and the second call returns failure without touching it; if
only the second succeeds, the entry is the second call's config; if
both fail, the registry is completely unchanged (no entry was ever
stored). -/
theorem register_last_write_wins (servers : Registry) (name : String)
    (url1 url2 desc1 desc2 : String) (at1 at2 tok1 tok2 : Option String)
    (md1 md2 : Option (List (String × Json))) (o1 o2 : DiscoveryOutcome) (n1 n2 : Nat)
    (hnodup : (servers.map Prod.fst).Nodup) :
    (∀ c1 c2 : MCPServerConfig,
      discover_server_capabilities
        (freshConfig name url1 desc1 at1 tok1 md1) o1 n1 = .ok c1 →
      discover_server_capabilities
        (freshConfig name url2 desc2 at2 tok2 md2) o2 n2 = .ok c2 →
      (((register_server (register_server servers name url1 desc1 at1 tok1 md1 o1 n1).2
            name url2 desc2 at2 tok2 md2 o2 n2).2.filter
          (fun kv => kv.1 == name)).length = 1) ∧
      dictGet (register_server
          (register_server servers name url1 desc1 at1 tok1 md1 o1 n1).2
          name url2 desc2 at2 tok2 md2 o2 n2).2 name = some c2 ∧
      ((register_server (register_server servers name url1 desc1 at1 tok1 md1 o1 n1).2
          name url2 desc2 at2 tok2 md2 o2 n2).2.map Prod.fst).Nodup) ∧
    (∀ (c1 : MCPServerConfig) (e2 : MCPServerConfig),
      discover_server_capabilities
        (freshConfig name url1 desc1 at1 tok1 md1) o1 n1 = .ok c1 →
      discover_server_capabilities
        (freshConfig name url2 desc2 at2 tok2 md2) o2 n2 = .error e2 →
      register_server (register_server servers name url1 desc1 at1 tok1 md1 o1 n1).2
          name url2 desc2 at2 tok2 md2 o2 n2 = (false, dictSet servers name c1) ∧
      dictGet (dictSet servers name c1) name = some c1 ∧
      (((dictSet servers name c1).filter (fun kv => kv.1 == name)).length = 1) ∧
      (((dictSet servers name c1).map Prod.fst).Nodup)) ∧
    (∀ (e1 : MCPServerConfig) (c2 : MCPServerConfig),
      discover_server_capabilities
        (freshConfig name url1 desc1 at1 tok1 md1) o1 n1 = .error e1 →
      discover_server_capabilities
        (freshConfig name url2 desc2 at2 tok2 md2) o2 n2 = .ok c2 →
      register_server (register_server servers name url1 desc1 at1 tok1 md1 o1 n1).2
          name url2 desc2 at2 tok2 md2 o2 n2 = (true, dictSet servers name c2) ∧
      dictGet (dictSet servers name c2) name = some c2) ∧
    (∀ (e1 : MCPServerConfig) (e2 : MCPServerConfig),
      discover_server_capabilities
        (freshConfig name url1 desc1 at1 tok1 md1) o1 n1 = .error e1 →
      discover_server_capabilities
        (freshConfig name url2 desc2 at2 tok2 md2) o2 n2 = .error e2 →
      register_server (register_server servers name url1 desc1 at1 tok1 md1 o1 n1).2
          name url2 desc2 at2 tok2 md2 o2 n2 = (false, servers)) := by
  refine ⟨?_, ?_, ?_, ?_⟩
  · intro c1 c2 h1 h2
    have e1 : (register_server servers name url1 desc1 at1 tok1 md1 o1 n1).2 =
        dictSet servers name c1 := by
      simp [register_server, h1]
    rw [e1]
    have e2 : (register_server (dictSet servers name c1)
        name url2 desc2 at2 tok2 md2 o2 n2).2 =
        dictSet (dictSet servers name c1) name c2 := by
      simp [register_server, h2]
    rw [e2]
    have hd1 : ((dictSet servers name c1).map Prod.fst).Nodup :=
      nodup_keys_dictSet servers name c1 hnodup
    have hd2 : ((dictSet (dictSet servers name c1) name c2).map Prod.fst).Nodup :=
      nodup_keys_dictSet _ name c2 hd1
    have hget : dictGet (dictSet (dictSet servers name c1) name c2) name = some c2 :=
      dictGet_dictSet_self _ name c2
    have hmem : name ∈ (dictSet (dictSet servers name c1) name c2).map Prod.fst :=
      (dictHasKey_iff_mem_keys _ name).mp
        (dictHasKey_of_dictGet_some _ name c2 hget)
    refine ⟨?_, hget, hd2⟩
    rw [filter_key_length]
    exact List.count_eq_one_of_mem hd2 hmem
  · intro c1 e2 h1 h2
    have he1 : (register_server servers name url1 desc1 at1 tok1 md1 o1 n1).2 =
        dictSet servers name c1 := by
      simp [register_server, h1]
    rw [he1]
    have hd1 : ((dictSet servers name c1).map Prod.fst).Nodup :=
      nodup_keys_dictSet servers name c1 hnodup
    have hget : dictGet (dictSet servers name c1) name = some c1 :=
      dictGet_dictSet_self _ name c1
    have hmem : name ∈ (dictSet servers name c1).map Prod.fst :=
      (dictHasKey_iff_mem_keys _ name).mp
        (dictHasKey_of_dictGet_some _ name c1 hget)
    refine ⟨?_, hget, ?_, hd1⟩
    · simp [register_server, h2]
    · rw [filter_key_length]
      exact List.count_eq_one_of_mem hd1 hmem
  · intro e1 c2 h1 h2
    have he1 : (register_server servers name url1 desc1 at1 tok1 md1 o1 n1).2 =
        servers := by
      simp [register_server, h1]
    rw [he1]
    exact ⟨by simp [register_server, h2], dictGet_dictSet_self _ name c2⟩
  · intro e1 e2 h1 h2
    have he1 : (register_server servers name url1 desc1 at1 tok1 md1 o1 n1).2 =
        servers := by
      simp [register_server, h1]
    rw [he1]
    simp [register_server, h2]

/-- Witness for the amended C8: registering "alpha" twice with distinct
URLs and both discoveries succeeding leaves one entry carrying the
second URL; with the second discovery failing, the stored entry keeps
the first call's config and the second call reports failure. -/
theorem register_last_write_wins_witness :
    ((((register_server (register_server [] "alpha" "u1" "" none none none okOut 0).2
          "alpha" "u2" "" none none none okOut 3).2.filter
        (fun kv => kv.1 == "alpha")).length = 1) ∧
      dictGet (register_server
          (register_server [] "alpha" "u1" "" none none none okOut 0).2
          "alpha" "u2" "" none none none okOut 3).2 "alpha" =
        some { freshConfig "alpha" "u2" "" none none none with
               is_healthy := true,
               last_health_check := some 3 }) ∧
    register_server (register_server [] "alpha" "u1" "" none none none okOut 0).2
        "alpha" "u2" "" none none none failOut 1 =
      (false, dictSet [] "alpha"
        { freshConfig "alpha" "u1" "" none none none with
          is_healthy := true,
          last_health_check := some 0 }) :=
  have hok := (register_last_write_wins [] "alpha" "u1" "u2" "" "" none none
      none none none none okOut okOut 0 3 (by simp)).1
    { freshConfig "alpha" "u1" "" none none none with
      is_healthy := true,
      last_health_check := some 0 }
    { freshConfig "alpha" "u2" "" none none none with
      is_healthy := true,
      last_health_check := some 3 }
    (by decide) (by decide)
  have hfail := ((register_last_write_wins [] "alpha" "u1" "u2" "" "" none none
      none none none none okOut failOut 0 1 (by simp)).2.1
    { freshConfig "alpha" "u1" "" none none none with
      is_healthy := true,
      last_health_check := some 0 }
    { freshConfig "alpha" "u2" "" none none none with error_count := 1 }
    (by decide) (by decide)).1
  ⟨⟨hok.1, hok.2.1⟩, hfail⟩

/-! ## C4: the aggregate tool view -/

/-- One emitted entry as the spec's Aggregator section words it:
`{name: "<backend>.<tool.name>", description: "[<backend>] <tool.description>",
backend, originalName: tool.name, inputSchema: tool.inputSchema}` —
written against the spec, with the source's field keys (`server` /
`original_name` are the source spellings of the spec's `backend` /
`originalName`), for comparison with `get_all_tools`. -/
def specToolEntry (backend : String) (tool : Json) : Json :=
  .obj [
    ("name", .str (backend ++ "." ++ (tool.getD "name" (.str "")).pyStr)),
    ("description", .str ("[" ++ backend ++ "] " ++ (tool.getD "description" (.str "")).pyStr)),
    ("server", .str backend),
    ("original_name", tool.getD "name" (.str "")),
    ("inputSchema", tool.getD "inputSchema" (.obj []))]

/-- The aggregate view the spec describes for `allTools()`: for every
backend with `enabled=true and isHealthy=true`, in backend iteration
order, one `specToolEntry` per stored tool in order; disabled or
unhealthy backends contribute nothing. -/
def allToolsSpec (servers : Registry) : List Json :=
  (servers.map (fun kv =>
    if kv.2.enabled && kv.2.is_healthy then
      kv.2.tools.elems.map (specToolEntry kv.1)
    else [])).flatten

theorem namespace_tools_ok (backend : String) (tools : List Json)
    (h : ∀ t ∈ tools, (t.get "name").isOk = true) :
    namespace_tools backend tools = .ok (tools.map (specToolEntry backend)) := by
  induction tools with
  | nil => rfl
  | cons t ts ih =>
    have h0 := h t (by simp)
    have hnm : ∃ nm, t.get "name" = .ok nm := by
      cases he : t.get "name" with
      | ok v => exact ⟨v, rfl⟩
      | error e => rw [he] at h0; simp [Except.isOk, Except.toBool] at h0
    obtain ⟨nm, hnm⟩ := hnm
    have ht : namespace_tool backend t = .ok (specToolEntry backend t) := by
      simp [namespace_tool, specToolEntry, hnm, Json.getD]
    simp [namespace_tools, ht, ih (fun t' ht' => h t' (by simp [ht']))]

theorem eq_arr_of_isArr (j : Json) (h : j.isArr = true) :
    j = Json.arr j.elems := by
  cases j <;> first
    | rfl
    | simp [Json.isArr] at h

/-- C4: whenever every enabled, healthy backend's stored `tools` value
is an actual array whose tool records each have a "name" key, so that
neither the iteration nor the `tool["name"]` subscript raises,
`get_all_tools` returns exactly the spec's aggregate view: one
namespaced entry per stored tool of each enabled healthy backend, in
backend iteration order then tool order, and nothing from disabled or
unhealthy backends.  (`get_all_tools` reads the registry without
returning a modified one, so stored records are untouched.) -/
theorem get_all_tools_correct (servers : Registry)
    (hwf : ∀ kv ∈ servers, kv.2.enabled = true → kv.2.is_healthy = true →
      kv.2.tools.isArr = true ∧
        ∀ tool ∈ kv.2.tools.elems, (tool.get "name").isOk = true) :
    get_all_tools servers = .ok (allToolsSpec servers) := by
  induction servers with
  | nil => rfl
  | cons kv rest ih =>
    obtain ⟨sname, config⟩ := kv
    have ihr : get_all_tools rest = .ok (allToolsSpec rest) :=
      ih (fun kv hkv => hwf kv (by simp [hkv]))
    by_cases hcond : (!config.enabled || !config.is_healthy) = true
    · have hc : (config.enabled && config.is_healthy) = false := by
        rcases Bool.or_eq_true_iff.mp hcond with h | h <;>
          simp [Bool.not_eq_true'] at h <;> simp [h]
      simp [get_all_tools, allToolsSpec, hcond, hc, ihr, List.flatten]
    · have he : config.enabled = true ∧ config.is_healthy = true := by
        constructor <;> by_contra hx <;>
          simp [Bool.not_eq_true] at hx <;> simp [hx] at hcond
      obtain ⟨harr, hnames⟩ := hwf (sname, config) (by simp) he.1 he.2
      have hpy : pyIter config.tools = .ok config.tools.elems := by
        rw [eq_arr_of_isArr _ harr]
        simp [pyIter, Json.elems]
      have hns := namespace_tools_ok sname config.tools.elems hnames
      simp [get_all_tools, allToolsSpec, hcond, he.1, he.2, hpy, hns, ihr]

/-- Witness for C4 on the spec's own example shape: an enabled healthy
backend, an enabled unhealthy one and a disabled healthy one — only the
first contributes entries. -/
theorem get_all_tools_correct_witness :
    get_all_tools [("alpha", healthyConfig), ("beta", unhealthyConfig),
        ("gamma", disabledConfig)] =
      .ok (allToolsSpec [("alpha", healthyConfig), ("beta", unhealthyConfig),
        ("gamma", disabledConfig)]) ∧
    allToolsSpec [("alpha", healthyConfig), ("beta", unhealthyConfig),
        ("gamma", disabledConfig)] = [specToolEntry "alpha" sampleTool] :=
  ⟨get_all_tools_correct _ (by decide), by decide⟩

/-! ## C10: `get_all_tools` is partial in the tool records -/

theorem mem_elems_arr (j : Json) (t : Json) (h : t ∈ j.elems) :
    j = Json.arr j.elems := by
  cases j <;> simp [Json.elems] at h ⊢

theorem namespace_tools_error (backend : String) (tools : List Json) (t : Json)
    (ht : t ∈ tools) (he : t.get "name" = .error ()) :
    namespace_tools backend tools = .error () := by
  induction tools with
  | nil => cases ht
  | cons t0 ts ih =>
    rcases List.mem_cons.mp ht with h0 | h0
    · subst h0
      simp [namespace_tools, namespace_tool, he]
    · cases h1 : namespace_tool backend t0 with
      | error e => simp [namespace_tools, h1]
      | ok v => simp [namespace_tools, h1, ih h0]

/-- C10: `get_all_tools` is not total over arbitrary discovered
catalogs: as soon as any enabled, healthy backend stores a tool record
without a "name" key, the whole call raises (`KeyError`, modelled as
`.error ()`) instead of returning a list; by contrast a missing
"description" or "inputSchema" is replaced by the defaults `""` /
`{}` in the emitted entry. -/
theorem get_all_tools_missing_name_behavior :
    (∀ (servers : Registry) (bname : String) (c : MCPServerConfig) (tool : Json),
      (bname, c) ∈ servers → c.enabled = true → c.is_healthy = true →
      tool ∈ c.tools.elems → tool.get "name" = .error () →
      get_all_tools servers = .error ()) ∧
    (∀ (backend : String) (tool : Json) (nm : Json),
      tool.get "name" = .ok nm →
      tool.get "description" = .error () →
      tool.get "inputSchema" = .error () →
      namespace_tool backend tool = .ok (.obj [
        ("name", .str (backend ++ "." ++ nm.pyStr)),
        ("description", .str ("[" ++ backend ++ "] ")),
        ("server", .str backend),
        ("original_name", nm),
        ("inputSchema", .obj [])])) := by
  constructor
  · intro servers bname c tool hmem hen hh htool hname
    induction servers with
    | nil => cases hmem
    | cons kv rest ih =>
      rcases List.mem_cons.mp hmem with h0 | h0
      · subst h0
        have hcond : (!c.enabled || !c.is_healthy) = false := by
          simp [hen, hh]
        have hpy : pyIter c.tools = .ok c.tools.elems := by
          rw [mem_elems_arr c.tools tool htool]
          simp [pyIter, Json.elems]
        have hns := namespace_tools_error bname c.tools.elems tool htool hname
        simp [get_all_tools, hcond, hpy, hns]
      · obtain ⟨sname, config⟩ := kv
        have ihr := ih h0
        by_cases hcond : (!config.enabled || !config.is_healthy) = true
        · simpa [get_all_tools, hcond] using ihr
        · cases hpi : pyIter config.tools with
          | error e => simp [get_all_tools, hcond, hpi]
          | ok tools =>
            cases h1 : namespace_tools sname tools with
            | error e => simp [get_all_tools, hcond, hpi, h1]
            | ok v => simp [get_all_tools, hcond, hpi, h1, ihr]
  · intro backend tool nm hname hdesc hschema
    simp [namespace_tool, hname, Json.getD, hdesc, hschema, Json.pyStr, String.append_empty]

/-- Witness for C10: a catalog whose single tool record is `{"x": 1}`
(no "name") makes the whole aggregation raise, while a record carrying
only a "name" gets the default description and empty schema. -/
theorem get_all_tools_missing_name_behavior_witness :
    get_all_tools [("alpha", { healthyConfig with
      tools := .arr [.obj [("x", .num 1)]] })] = .error () ∧
    namespace_tool "alpha" (.obj [("name", .str "ping")]) = .ok (.obj [
      ("name", .str "alpha.ping"),
      ("description", .str "[alpha] "),
      ("server", .str "alpha"),
      ("original_name", .str "ping"),
      ("inputSchema", .obj [])]) :=
  ⟨get_all_tools_missing_name_behavior.1
      [("alpha", { healthyConfig with tools := .arr [.obj [("x", .num 1)]] })]
      "alpha" { healthyConfig with tools := .arr [.obj [("x", .num 1)]] }
      (.obj [("x", .num 1)]) (by simp) (by decide) (by decide) (by decide) (by decide),
   get_all_tools_missing_name_behavior.2 "alpha" (.obj [("name", .str "ping")])
      (.str "ping") (by decide) (by decide) (by decide)⟩

/-! ## C2: health-monitor failure accounting -/

/-- C2 as stated is false on the code: one failing Health Monitor cycle
against a backend with `error_count = 0` leaves `error_count = 2`, not
`error_count + 1 = 1` — `_call_mcp_method` increments once before
re-raising and the monitor's except branch increments again. -/
theorem health_monitor_claim_counterexample :
    (dictGet (health_monitor_cycle [("alpha", healthyConfig)] (fun _ => failOut) 9)
        "alpha").map MCPServerConfig.error_count = some 2 ∧
    some 2 ≠ some (healthyConfig.error_count + 1) := by
  decide

/-- C2 amended: for an enabled backend, a Health Monitor cycle whose
discovery fails sets `is_healthy=false` and increases `error_count` by
an amount that depends on where the failure arose: by exactly 2 when the
`tools/list` connector call itself fails (one increment inside
`_call_mcp_method` before the exception propagates, one in the monitor's
own except branch), and by exactly 1 when the call succeeds but the
result processing raises a `TypeError` (only the monitor increments).
The backend is disabled once `error_count` exceeds 5: starting from
`error_count = 0`, after the 3rd consecutive connector-failing cycle, or
after the 6th consecutive processing-failing cycle (the count the
original claim gives); from the next cycle on it is skipped entirely —
the cycle is the identity on it — until re-enabled. -/
theorem health_monitor_failure_accounting (c : MCPServerConfig) (name : String)
    (now : Nat) (hen : c.enabled = true) (hec : c.error_count = 0) :
    (∀ outs : String → DiscoveryOutcome, (outs name).toolsResp = .error () →
      (∀ d : MCPServerConfig, d.enabled = true →
        ∃ d', health_monitor_cycle [(name, d)] outs now = [(name, d')] ∧
          d'.error_count = d.error_count + 2 ∧ d'.is_healthy = false ∧
          (d.error_count + 2 > 5 → d'.enabled = false) ∧
          (d.error_count + 2 ≤ 5 → d'.enabled = true)) ∧
      (∃ c1 c2 c3 : MCPServerConfig,
        health_monitor_cycle [(name, c)] outs now = [(name, c1)] ∧
        c1.error_count = 2 ∧ c1.is_healthy = false ∧ c1.enabled = true ∧
        health_monitor_cycle [(name, c1)] outs now = [(name, c2)] ∧
        c2.error_count = 4 ∧ c2.is_healthy = false ∧ c2.enabled = true ∧
        health_monitor_cycle [(name, c2)] outs now = [(name, c3)] ∧
        c3.error_count = 6 ∧ c3.is_healthy = false ∧ c3.enabled = false ∧
        health_monitor_cycle [(name, c3)] outs now = [(name, c3)])) ∧
    (∀ (outs : String → DiscoveryOutcome) (j : Json),
      (outs name).toolsResp = .ok (some j) → j.truthy = true →
      (pyContains j "tools" = .error () ∨
        (pyContains j "tools" = .ok true ∧ j.get "tools" = .error ())) →
      (∀ d : MCPServerConfig, d.enabled = true →
        ∃ d', health_monitor_cycle [(name, d)] outs now = [(name, d')] ∧
          d'.error_count = d.error_count + 1 ∧ d'.is_healthy = false ∧
          (d.error_count + 1 > 5 → d'.enabled = false) ∧
          (d.error_count + 1 ≤ 5 → d'.enabled = true)) ∧
      (∃ e1 e2 e3 e4 e5 e6 : MCPServerConfig,
        health_monitor_cycle [(name, c)] outs now = [(name, e1)] ∧
        e1.error_count = 1 ∧ e1.is_healthy = false ∧ e1.enabled = true ∧
        health_monitor_cycle [(name, e1)] outs now = [(name, e2)] ∧
        e2.error_count = 2 ∧ e2.enabled = true ∧
        health_monitor_cycle [(name, e2)] outs now = [(name, e3)] ∧
        e3.error_count = 3 ∧ e3.enabled = true ∧
        health_monitor_cycle [(name, e3)] outs now = [(name, e4)] ∧
        e4.error_count = 4 ∧ e4.enabled = true ∧
        health_monitor_cycle [(name, e4)] outs now = [(name, e5)] ∧
        e5.error_count = 5 ∧ e5.enabled = true ∧
        health_monitor_cycle [(name, e5)] outs now = [(name, e6)] ∧
        e6.error_count = 6 ∧ e6.is_healthy = false ∧ e6.enabled = false ∧
        health_monitor_cycle [(name, e6)] outs now = [(name, e6)])) := by
  constructor
  · intro outs hfail
    have hdisc : ∀ d : MCPServerConfig,
        discover_server_capabilities d (outs name) now =
          .error { d with error_count := d.error_count + 1 } := by
      intro d
      simp [discover_server_capabilities, call_mcp_method, hfail]
    have hstep : ∀ d : MCPServerConfig, d.enabled = true →
        health_monitor_cycle [(name, d)] outs now =
          [(name,
            if d.error_count + 2 > 5 then
              { d with is_healthy := false, error_count := d.error_count + 2,
                       enabled := false }
            else
              { d with is_healthy := false, error_count := d.error_count + 2 })] := by
      intro d hd
      by_cases h5 : d.error_count + 2 > 5
      · simp [health_monitor_cycle, hd, hdisc d, h5, Nat.add_assoc]
      · simp [health_monitor_cycle, hd, hdisc d, h5, Nat.add_assoc]
    constructor
    · intro d hd
      by_cases h5 : d.error_count + 2 > 5
      · exact ⟨_, by rw [hstep d hd, if_pos h5], by simp, by simp, fun _ => by simp,
          fun hle => absurd h5 (by omega)⟩
      · exact ⟨_, by rw [hstep d hd, if_neg h5], by simp, by simp,
          fun hgt => absurd hgt h5, fun _ => by simp [hd]⟩
    · refine ⟨{ c with is_healthy := false, error_count := 2 },
        { c with is_healthy := false, error_count := 4 },
        { c with is_healthy := false, error_count := 6, enabled := false },
        ?_, rfl, rfl, hen, ?_, rfl, rfl, hen, ?_, rfl, rfl, rfl, ?_⟩
      · rw [hstep c hen, if_neg (by omega)]
        simp [hec]
      · rw [hstep { c with is_healthy := false, error_count := 2 } hen]
        rw [if_neg (by simp)]
      · rw [hstep { c with is_healthy := false, error_count := 4 } hen]
        rw [if_pos (by simp)]
      · simp [health_monitor_cycle]
  · intro outs j hj htr hre
    have hg : guardedFieldOf (some j) "tools" = .error () := by
      rcases hre with h | ⟨h1, h2⟩
      · simp [guardedFieldOf, htr, h]
      · simp [guardedFieldOf, htr, h1, h2]
    have hdisc : ∀ d : MCPServerConfig,
        discover_server_capabilities d (outs name) now = .error d := by
      intro d
      simp [discover_server_capabilities, call_mcp_method, hj, hg]
    have hstep : ∀ d : MCPServerConfig, d.enabled = true →
        health_monitor_cycle [(name, d)] outs now =
          [(name,
            if d.error_count + 1 > 5 then
              { d with is_healthy := false, error_count := d.error_count + 1,
                       enabled := false }
            else
              { d with is_healthy := false, error_count := d.error_count + 1 })] := by
      intro d hd
      by_cases h5 : d.error_count + 1 > 5
      · simp [health_monitor_cycle, hd, hdisc d, h5]
      · simp [health_monitor_cycle, hd, hdisc d, h5]
    constructor
    · intro d hd
      by_cases h5 : d.error_count + 1 > 5
      · exact ⟨_, by rw [hstep d hd, if_pos h5], by simp, by simp, fun _ => by simp,
          fun hle => absurd h5 (by omega)⟩
      · exact ⟨_, by rw [hstep d hd, if_neg h5], by simp, by simp,
          fun hgt => absurd hgt h5, fun _ => by simp [hd]⟩
    · refine ⟨{ c with is_healthy := false, error_count := 1 },
        { c with is_healthy := false, error_count := 2 },
        { c with is_healthy := false, error_count := 3 },
        { c with is_healthy := false, error_count := 4 },
        { c with is_healthy := false, error_count := 5 },
        { c with is_healthy := false, error_count := 6, enabled := false },
        ?_, rfl, rfl, hen, ?_, rfl, hen, ?_, rfl, hen, ?_, rfl, hen,
        ?_, rfl, hen, ?_, rfl, rfl, rfl, ?_⟩
      · rw [hstep c hen, if_neg (by omega)]
        simp [hec]
      · rw [hstep { c with is_healthy := false, error_count := 1 } hen]
        rw [if_neg (by simp)]
      · rw [hstep { c with is_healthy := false, error_count := 2 } hen]
        rw [if_neg (by simp)]
      · rw [hstep { c with is_healthy := false, error_count := 3 } hen]
        rw [if_neg (by simp)]
      · rw [hstep { c with is_healthy := false, error_count := 4 } hen]
        rw [if_neg (by simp)]
      · rw [hstep { c with is_healthy := false, error_count := 5 } hen]
        rw [if_pos (by simp)]
      · simp [health_monitor_cycle]

/-- Witness for the amended C2: a concrete healthy backend run through
consecutive connector-failing cycles (disabled after the 3rd) and,
separately, through consecutive malformed-result cycles against a
`tools/list` result of `42` (disabled after the 6th). -/
theorem health_monitor_failure_accounting_witness :
    ((∀ d : MCPServerConfig, d.enabled = true →
      ∃ d', health_monitor_cycle [("alpha", d)] (fun _ => failOut) 9 = [("alpha", d')] ∧
        d'.error_count = d.error_count + 2 ∧ d'.is_healthy = false ∧
        (d.error_count + 2 > 5 → d'.enabled = false) ∧
        (d.error_count + 2 ≤ 5 → d'.enabled = true)) ∧
    (∃ c1 c2 c3 : MCPServerConfig,
      health_monitor_cycle [("alpha", healthyConfig)] (fun _ => failOut) 9 =
        [("alpha", c1)] ∧
      c1.error_count = 2 ∧ c1.is_healthy = false ∧ c1.enabled = true ∧
      health_monitor_cycle [("alpha", c1)] (fun _ => failOut) 9 = [("alpha", c2)] ∧
      c2.error_count = 4 ∧ c2.is_healthy = false ∧ c2.enabled = true ∧
      health_monitor_cycle [("alpha", c2)] (fun _ => failOut) 9 = [("alpha", c3)] ∧
      c3.error_count = 6 ∧ c3.is_healthy = false ∧ c3.enabled = false ∧
      health_monitor_cycle [("alpha", c3)] (fun _ => failOut) 9 = [("alpha", c3)])) ∧
    ((∀ d : MCPServerConfig, d.enabled = true →
      ∃ d', health_monitor_cycle [("alpha", d)] (fun _ => typeErrOut) 9 = [("alpha", d')] ∧
        d'.error_count = d.error_count + 1 ∧ d'.is_healthy = false ∧
        (d.error_count + 1 > 5 → d'.enabled = false) ∧
        (d.error_count + 1 ≤ 5 → d'.enabled = true)) ∧
    (∃ e1 e2 e3 e4 e5 e6 : MCPServerConfig,
      health_monitor_cycle [("alpha", healthyConfig)] (fun _ => typeErrOut) 9 =
        [("alpha", e1)] ∧
      e1.error_count = 1 ∧ e1.is_healthy = false ∧ e1.enabled = true ∧
      health_monitor_cycle [("alpha", e1)] (fun _ => typeErrOut) 9 = [("alpha", e2)] ∧
      e2.error_count = 2 ∧ e2.enabled = true ∧
      health_monitor_cycle [("alpha", e2)] (fun _ => typeErrOut) 9 = [("alpha", e3)] ∧
      e3.error_count = 3 ∧ e3.enabled = true ∧
      health_monitor_cycle [("alpha", e3)] (fun _ => typeErrOut) 9 = [("alpha", e4)] ∧
      e4.error_count = 4 ∧ e4.enabled = true ∧
      health_monitor_cycle [("alpha", e4)] (fun _ => typeErrOut) 9 = [("alpha", e5)] ∧
      e5.error_count = 5 ∧ e5.enabled = true ∧
      health_monitor_cycle [("alpha", e5)] (fun _ => typeErrOut) 9 = [("alpha", e6)] ∧
      e6.error_count = 6 ∧ e6.is_healthy = false ∧ e6.enabled = false ∧
      health_monitor_cycle [("alpha", e6)] (fun _ => typeErrOut) 9 = [("alpha", e6)])) :=
  ⟨(health_monitor_failure_accounting healthyConfig "alpha" 9 rfl rfl).1
      (fun _ => failOut) rfl,
   (health_monitor_failure_accounting healthyConfig "alpha" 9 rfl rfl).2
      (fun _ => typeErrOut) (.num 42) rfl (by decide) (Or.inl (by decide))⟩

end Federation
